import Mathlib

/-!
Verification development for the fAIr-utilities preprocessing and inference
modules.  The Lean definitions below are a shallow embedding of

  * `hot_fair_utilities/inference/predict.py` (`predict`), and
  * `hot_fair_utilities/preprocessing/multimasks_from_polygons.py`
    (`multimasks_from_polygons`),

with external collaborators (ramp / solaris / numpy / torch primitives)
modelled at their interface boundaries.  Probabilities, confidences and
pixel resolutions are modelled as rationals; the surrounding drivers are
modelled as pure functions producing an explicit trace of observable
events (skips, parameter prints, rasterizer calls, file writes).
-/

namespace FairUtils

/-! ### Inference dispatcher: `inference/predict.py` -/

/-- The constant `BATCH_SIZE = 8` from `predict.py`. -/
def BATCH_SIZE : ℕ := 8

/-- Per-pixel output of a dense (keras) classifier for one image: each pixel
carries a vector of class scores (last axis of the prediction tensor). -/
abbrev DenseImagePred := List (List ℚ)

/-- Per-pixel output of a FastSAM result for one image: each pixel carries the
stack of instance-mask values at that pixel (`r.masks.data`, a nonempty stack
modelled as head plus tail). -/
abbrev SamImagePred := List (ℚ × List ℚ)

/-- The function `np.argmax` over a score vector: index of the first
occurrence of the maximal entry (numpy returns the first maximum). -/
def npArgmax (scores : List ℚ) : ℕ :=
  (scores.foldl
    (fun acc x => if acc.2.2 < x then (acc.2.1, acc.2.1 + 1, x) else (acc.1, acc.2.1 + 1, acc.2.2))
    ((0 : ℕ), (0 : ℕ), scores.headD 0)).1

/-- One pixel of the keras path: `np.where(preds > confidence, 1, 0)` applied
to the argmax class index of that pixel (lines 62-67 of `predict.py`). -/
def densePixelVal (confidence : ℚ) (scores : List ℚ) : ℕ :=
  if (npArgmax scores : ℚ) > confidence then 1 else 0

/-- The keras path applied to one image: per-pixel argmax then threshold. -/
def denseImage (confidence : ℚ) (img : DenseImagePred) : List ℕ :=
  img.map (densePixelVal confidence)

/-- The keras branch of `predict`: images are processed in chunks of
`BATCH_SIZE` (ceil-division chunk count, `image_paths[BATCH_SIZE*i :
BATCH_SIZE*(i+1)]`), each image mapped through argmax-and-threshold. -/
def kerasPath (confidence : ℚ) (preds : List DenseImagePred) : List (List ℕ) :=
  ((List.range ((preds.length + BATCH_SIZE - 1) / BATCH_SIZE)).map
    (fun i => ((preds.drop (BATCH_SIZE * i)).take BATCH_SIZE).map (denseImage confidence))).flatten

/-- The reduction `r.masks.data.max(dim=0)[0]` at one pixel: maximum across
the instance masks stacked at that pixel. -/
def torchStackMax (v : ℚ) (vs : List ℚ) : ℚ := vs.foldl max v

/-- One pixel of the FastSAM path: `torch.where(preds > confidence, 1, 0)`
applied to the across-instances maximum (lines 80-81 of `predict.py`). -/
def samPixelVal (confidence : ℚ) (v : ℚ) (vs : List ℚ) : ℕ :=
  if torchStackMax v vs > confidence then 1 else 0

/-- The FastSAM path applied to one image. -/
def samImage (confidence : ℚ) (img : SamImagePred) : List ℕ :=
  img.map (fun px => samPixelVal confidence px.1 px.2)

/-- The FastSAM branch of `predict`: results are streamed one per image. -/
def fastSAMPath (confidence : ℚ) (preds : List SamImagePred) : List (List ℕ) :=
  preds.map (samImage confidence)

/-- The closed set of model modalities `predict` dispatches over, each
recognized variant carrying (an abstraction of) its forward-pass output:
`keras.Model`, `YOLO`, `FastSAM`, or any other loaded object. -/
inductive Model where
  | keras (preds : List DenseImagePred)
  | yolo
  | fastSAM (preds : List SamImagePred)
  | other

/-- Errors raised by `predict`'s dispatch: `raise NotImplementedError` for
YOLO, and `raise RuntimeError("Loaded model is not supported")` (the spec's
`UnsupportedModelError`) for anything unrecognized. -/
inductive PredictError where
  | notImplementedError
  | unsupportedModelError
deriving DecidableEq

/-- The modality dispatch of `predict` (lines 56-85 of `predict.py`): a
keras model takes the batched dense path, YOLO raises, FastSAM takes the
streamed path, anything else raises.  The result is the list of per-image
masks written to the prediction directory. -/
def predict (model : Model) (confidence : ℚ) : Except PredictError (List (List ℕ)) :=
  match model with
  | Model.keras preds => Except.ok (kerasPath confidence preds)
  | Model.yolo => Except.error PredictError.notImplementedError
  | Model.fastSAM preds => Except.ok (fastSAMPath confidence preds)
  | Model.other => Except.error PredictError.unsupportedModelError

/-! Chunking lemmas: the fixed-size batching of the keras path covers every
image exactly once. -/

lemma chunks_flatten {α : Type} (k : ℕ) (_hk : 0 < k) :
    ∀ (m : ℕ) (l : List α), l.length ≤ k * m →
      ((List.range m).map (fun i => (l.drop (k * i)).take k)).flatten = l := by
  intro m
  induction m with
  | zero =>
    intro l hl
    simp only [Nat.mul_zero, Nat.le_zero, List.length_eq_zero] at hl
    simp [hl]
  | succ m ih =>
    intro l hl
    rw [List.range_succ_eq_map, List.map_cons, List.flatten_cons, List.map_map]
    have hmap : (List.range m).map ((fun i => (l.drop (k * i)).take k) ∘ Nat.succ)
        = (List.range m).map (fun i => ((l.drop k).drop (k * i)).take k) := by
      refine List.map_congr_left ?_
      intro i _
      simp only [Function.comp_apply, List.drop_drop]
      congr 2
      rw [Nat.succ_eq_add_one]
      ring
    rw [hmap]
    rw [ih (l.drop k) (by
      rw [List.length_drop]
      have : k * (m + 1) = k * m + k := by ring
      omega)]
    simp only [Nat.mul_zero, List.drop_zero]
    exact List.take_append_drop k l

lemma length_le_mul_ceil (n : ℕ) : n ≤ BATCH_SIZE * ((n + BATCH_SIZE - 1) / BATCH_SIZE) := by
  show n ≤ 8 * ((n + 8 - 1) / 8)
  have h1 := Nat.div_add_mod (n + 7) 8
  have h2 : (n + 7) % 8 < 8 := Nat.mod_lt _ (by norm_num)
  omega

/-- The batched keras path processes exactly the input images, in order. -/
lemma kerasPath_eq_map (confidence : ℚ) (preds : List DenseImagePred) :
    kerasPath confidence preds = preds.map (denseImage confidence) := by
  unfold kerasPath
  have hmap : (List.range ((preds.length + BATCH_SIZE - 1) / BATCH_SIZE)).map
      (fun i => ((preds.drop (BATCH_SIZE * i)).take BATCH_SIZE).map (denseImage confidence))
      = ((List.range ((preds.length + BATCH_SIZE - 1) / BATCH_SIZE)).map
          (fun i => (preds.drop (BATCH_SIZE * i)).take BATCH_SIZE)).map
          (List.map (denseImage confidence)) := by
    rw [List.map_map]
    rfl
  rw [hmap, ← List.map_flatten,
    chunks_flatten BATCH_SIZE (by decide) _ preds (length_le_mul_ceil preds.length)]

/-- C3: Modality dispatch in `predict` is total over a closed set: a dense
keras classifier takes the batched per-pixel path (and that path covers every
input image, in order), a YOLO detector fails fast with the
`NotImplementedError` signal, a FastSAM promptable segmenter takes the
streamed per-image path where each pixel is the thresholded maximum across
instance masks, and any other model type fails with the unsupported-model
error rather than silently succeeding with any (e.g. empty) output. -/
theorem C3_modality_dispatch_total (confidence : ℚ) :
    (∀ preds, predict (Model.keras preds) confidence
        = Except.ok (preds.map (denseImage confidence))) ∧
    predict Model.yolo confidence = Except.error PredictError.notImplementedError ∧
    (∀ preds, predict (Model.fastSAM preds) confidence
        = Except.ok (preds.map (fun img =>
            img.map (fun px => samPixelVal confidence px.1 px.2)))) ∧
    (∀ out, predict Model.other confidence ≠ Except.ok out) ∧
    predict Model.other confidence = Except.error PredictError.unsupportedModelError := by
  refine ⟨fun preds => ?_, rfl, fun preds => rfl, fun out h => Except.noConfusion h, rfl⟩
  show Except.ok (kerasPath confidence preds) = _
  rw [kerasPath_eq_map]

/-- Concrete keras model output used to witness C3: one image, two pixels. -/
def kerasPredsW : List DenseImagePred := [[[1/4, 3/4], [3/4, 1/4]]]

/-- Concrete FastSAM output used to witness C3: one image, two pixels. -/
def samPredsW : List SamImagePred := [[(3/4, [1/4]), (1/4, [])]]

/-- Witness for C3 at concrete models and confidence 1/2. -/
theorem C3_modality_dispatch_total_witness :
    predict (Model.keras kerasPredsW) (1/2) = Except.ok [[1, 0]] ∧
    predict Model.yolo (1/2) = Except.error PredictError.notImplementedError ∧
    predict (Model.fastSAM samPredsW) (1/2) = Except.ok [[1, 0]] ∧
    predict Model.other (1/2) = Except.error PredictError.unsupportedModelError := by
  obtain ⟨h1, h2, h3, _, h5⟩ := C3_modality_dispatch_total (1/2)
  refine ⟨(h1 kerasPredsW).trans ?_, h2, (h3 samPredsW).trans ?_, h5⟩
  · norm_num [kerasPredsW, denseImage, densePixelVal, npArgmax]
  · norm_num [samPredsW, samPixelVal, torchStackMax]

/-- C4: Confidence thresholding in `predict` uses a strict greater-than
comparison in both the dense-classifier path and the FastSAM path: a pixel
value exactly equal to the confidence parameter is classified 0, and a value
strictly above it is classified 1. -/
theorem C4_threshold_strict (confidence : ℚ) (scores : List ℚ) (v : ℚ) (vs : List ℚ) :
    ((npArgmax scores : ℚ) = confidence → densePixelVal confidence scores = 0) ∧
    (confidence < (npArgmax scores : ℚ) → densePixelVal confidence scores = 1) ∧
    (torchStackMax v vs = confidence → samPixelVal confidence v vs = 0) ∧
    (confidence < torchStackMax v vs → samPixelVal confidence v vs = 1) := by
  refine ⟨fun h => ?_, fun h => ?_, fun h => ?_, fun h => ?_⟩
  · unfold densePixelVal
    rw [h]
    simp
  · unfold densePixelVal
    rw [if_pos h]
  · unfold samPixelVal
    rw [h]
    simp
  · unfold samPixelVal
    rw [if_pos h]

/-- Witness for C4: with scores `[0, 5]` the argmax index is 1; at confidence
exactly 1 the pixel is 0, at confidence 0 it is 1; same at the boundary for
the FastSAM stack maximum. -/
theorem C4_threshold_strict_witness :
    densePixelVal 1 [0, 5] = 0 ∧ densePixelVal 0 [0, 5] = 1 ∧
    samPixelVal 1 1 [] = 0 ∧ samPixelVal 0 1 [] = 1 := by
  refine ⟨(C4_threshold_strict 1 [0, 5] 1 []).1 ?_,
    (C4_threshold_strict 0 [0, 5] 1 []).2.1 ?_,
    (C4_threshold_strict 1 [0, 5] 1 []).2.2.1 ?_,
    (C4_threshold_strict 0 [0, 5] 1 []).2.2.2 ?_⟩
  · norm_num [npArgmax]
  · norm_num [npArgmax]
  · norm_num [torchStackMax]
  · norm_num [torchStackMax]

/-- C10: in the dense-classifier path the value compared against the
confidence threshold is the argmax class index, not a probability; for every
confidence in `[0, 1)` the pixel is 1 exactly when the argmax index is at
least 1, and the output is identical across all confidences in `[0, 1)`. -/
theorem C10_argmax_vs_probability (c c' : ℚ) (scores : List ℚ)
    (h0 : 0 ≤ c) (h1 : c < 1) (h0' : 0 ≤ c') (h1' : c' < 1) :
    densePixelVal c scores = (if 1 ≤ npArgmax scores then 1 else 0) ∧
    densePixelVal c scores = densePixelVal c' scores := by
  have key : ∀ d : ℚ, 0 ≤ d → d < 1 →
      densePixelVal d scores = (if 1 ≤ npArgmax scores then 1 else 0) := by
    intro d hd0 hd1
    unfold densePixelVal
    rcases Nat.eq_zero_or_pos (npArgmax scores) with h | h
    · rw [h, if_neg (by push_cast; exact not_lt.mpr hd0), if_neg (by omega)]
    · have hc : (1 : ℚ) ≤ (npArgmax scores : ℚ) := by exact_mod_cast h
      rw [if_pos (by linarith), if_pos (by omega : 1 ≤ npArgmax scores)]
  exact ⟨key c h0 h1, (key c h0 h1).trans (key c' h0' h1').symm⟩

/-- Witness for C10 at scores `[1/4, 3/4]` and confidences 1/2 and 0. -/
theorem C10_argmax_vs_probability_witness :
    densePixelVal (1/2) [1/4, 3/4] = (if 1 ≤ npArgmax [1/4, 3/4] then 1 else 0) ∧
    densePixelVal (1/2) [1/4, 3/4] = densePixelVal 0 [1/4, 3/4] :=
  C10_argmax_vs_probability (1/2) 0 [1/4, 3/4]
    (by norm_num) (by norm_num) le_rfl (by norm_num)

/-! ### Multimask batch driver: `preprocessing/multimasks_from_polygons.py` -/

/-- A coordinate reference system: an authority code together with whether the
system is projected/metric (the `crs_is_metric` predicate of solaris). -/
structure CRS where
  code : ℕ
  metric : Bool
deriving DecidableEq

/-- Raster metadata of one chip, as read by rasterio: pixel grid shape,
per-axis resolutions (`reference_im.res`), CRS, and the `meta` fields that the
mask writer copies and overrides (band count, dtype, nodata sentinel). -/
structure ChipMeta where
  height : ℕ
  width : ℕ
  resX : ℚ
  resY : ℚ
  crs : CRS
  count : ℕ
  dtype : String
  nodata : Option ℤ
deriving DecidableEq

/-- One geometry row of a label GeoDataFrame: whether it is null (`isna`),
whether it is empty, and how many single-part polygons it explodes into. -/
structure Geom where
  isna : Bool
  emptyGeom : Bool
  parts : ℕ
deriving DecidableEq

/-- A label file's content as read by `gpd.read_file`: an optional CRS (a
GeoDataFrame may lack one) and its geometry rows. -/
structure LabelData where
  crs : Option CRS
  geoms : List Geom
deriving DecidableEq

/-- One pixel of the one-hot multimask: (footprint, boundary, contact). -/
abbrev OneHotPixel := ℕ × ℕ × ℕ

/-- A one-hot, channels-last multimask of shape `(H, W, 3)` as returned by
`df_to_px_mask`. -/
abbrev OneHotMask := List (List OneHotPixel)

/-- Modelled from the spec (§3, §4.3 step 8): ramp's
`multimask_to_sparse_multimask` collapses a one-hot pixel to a single class id
with channel priority footprint > boundary > contact > background. -/
def sparsePixel (px : OneHotPixel) : ℕ :=
  if px.1 ≠ 0 then 1 else if px.2.1 ≠ 0 then 2 else if px.2.2 ≠ 0 then 3 else 0

/-- Modelled from the spec (§4.3 step 8): ramp's `multimask_to_sparse_multimask`
maps a `(H, W, 3)` one-hot mask to a `(H, W, 1)` sparse class mask. -/
def multimask_to_sparse_multimask (m : OneHotMask) : List (List (List ℕ)) :=
  m.map (fun row => row.map (fun px => [sparsePixel px]))

/-- Modelled from the spec (§4.3 step 9): ramp's `to_channels_first` reorders a
channels-last `(H, W, C)` array into channel-first `(C, H, W)` layout. -/
def to_channels_first (m : List (List (List ℕ))) : List (List (List ℕ)) :=
  (List.range ((m.headD []).headD []).length).map
    (fun c => m.map (fun row => row.map (fun px => px.getD c 0)))

/-- Python's `int()` applied to an exact rational: truncation toward zero. -/
def pyInt (q : ℚ) : ℤ := Int.tdiv q.num (q.den : ℤ)

/-- One chip/label pair as iterated by the batch driver, together with (an
abstraction of) the data behind the three paths: `chip = none` models an
unreadable chip, `label = none` a label file `gpd.read_file` fails on, and
`rasterized = none` a pair on which the external `df_to_px_mask` call raises
(e.g. corrupt geometry).  `maskPath` is the output path already derived by
`construct_mask_filepath`. -/
structure PairData where
  labelPath : String
  chipPath : String
  maskPath : String
  chip : Option ChipMeta
  label : Option LabelData
  rasterized : Option OneHotMask
deriving DecidableEq

/-- The sparse mask file written for one pair: the copied-and-overridden chip
metadata and the channel-first pixel data. -/
structure WrittenMask where
  meta : ChipMeta
  data : List (List (List ℕ))
deriving DecidableEq

/-- Observable events of one batch run, in order: a skipped pair, the one-time
parameter print of the metric branch (resolution plus widths in meters), the
one-time parameter print of the pixel branch (widths in pixels), a call into
the external rasterizer, and a mask-file write. -/
inductive Event where
  | skip (maskPath : String)
  | printParamsMeters (resolution boundaryWidth contactSpacing : ℚ)
  | printParamsPixels (boundaryWidth contactSpacing : ℤ)
  | rasterizeCall (labelPath : String) (polyCount : ℕ)
      (boundaryWidth contactSpacing : ℚ) (meters : Bool)
  | write (maskPath : String) (mask : WrittenMask)
deriving DecidableEq

/-- The per-pair failure modes of the loop body, each an uncaught Python
exception: chip unreadable, label unreadable, `to_crs` on a CRS-less
GeoDataFrame, or a failing `df_to_px_mask` call. -/
inductive PairFailure where
  | chipOpenError
  | labelReadError
  | crsReprojectionError
  | rasterizeError
deriving DecidableEq

/-- The body of the loop of `multimasks_from_polygons` after the skip check
(lines 84-165): read the chip header, read and filter the label geometries,
reconcile CRS (reprojecting, or failing when the GeoDataFrame has no CRS),
resolve the boundary/contact widths in meters or pixels (printing them on the
first iteration), explode multi-part polygons, call the rasterizer, and build
the sparse channel-first mask with the overridden chip metadata.  Returns the
events emitted, the updated first-iteration flag, and either a failure or the
mask to write. -/
def encodePair (input_boundary_width input_contact_spacing : ℚ)
    (first : Bool) (p : PairData) :
    List Event × Bool × Except PairFailure WrittenMask :=
  match p.chip with
  | none => ([], first, Except.error PairFailure.chipOpenError)
  | some chip =>
    match p.label with
    | none => ([], first, Except.error PairFailure.labelReadError)
    | some label =>
      let kept := (label.geoms.filter (fun g => !g.isna)).filter (fun g => !g.emptyGeom)
      match (if label.crs ≠ some chip.crs then
              (match label.crs with
               | none => none
               | some _ => some chip.crs)
             else label.crs) with
      | none => ([], first, Except.error PairFailure.crsReprojectionError)
      | some gcrs =>
        let res := min chip.resX chip.resY
        let meters := gcrs.metric
        let boundary_width : ℚ :=
          if meters then input_boundary_width else ((pyInt (input_boundary_width / res) : ℤ) : ℚ)
        let contact_spacing : ℚ :=
          if meters then input_contact_spacing else ((pyInt (input_contact_spacing / res) : ℤ) : ℚ)
        let printEvs : List Event :=
          if first then
            [if meters then
              Event.printParamsMeters res boundary_width contact_spacing
             else
              Event.printParamsPixels (pyInt (input_boundary_width / res))
                (pyInt (input_contact_spacing / res))]
          else []
        let polyCount := (kept.map Geom.parts).sum
        let callEv := Event.rasterizeCall p.labelPath polyCount boundary_width contact_spacing meters
        match p.rasterized with
        | none => (printEvs ++ [callEv], false, Except.error PairFailure.rasterizeError)
        | some onehot =>
          let sparse := to_channels_first (multimask_to_sparse_multimask onehot)
          (printEvs ++ [callEv], false,
           Except.ok ⟨{ chip with count := sparse.length, dtype := "uint8", nodata := none }, sparse⟩)

/-- One iteration of the driver loop: skip the pair when its mask file already
exists (lines 81-82), otherwise run the encoder body and, on success, write the
mask file.  Returns the events, the filesystem (list of existing paths), the
first-iteration flag, and the uncaught failure if any. -/
def processPair (input_boundary_width input_contact_spacing : ℚ)
    (fs : List String) (first : Bool) (p : PairData) :
    List Event × List String × Bool × Option PairFailure :=
  if p.maskPath ∈ fs then
    ([Event.skip p.maskPath], fs, first, none)
  else
    match encodePair input_boundary_width input_contact_spacing first p with
    | (evs, first', Except.error f) => (evs, fs, first', some f)
    | (evs, first', Except.ok w) =>
      (evs ++ [Event.write p.maskPath w], p.maskPath :: fs, first', none)

/-- A whole-run error: the `ValueError` raised when unpacking zero pairs (the
spec's `PairingError`), or an uncaught per-pair exception, tagged with the
failing pair's label path. -/
inductive DriverError where
  | pairingError
  | uncaught (labelPath : String) (f : PairFailure)
deriving DecidableEq

/-- The driver loop over all pairs (lines 74-165).  There is no exception
handler in the source loop, so the first per-pair failure terminates the run;
otherwise iteration continues with the updated filesystem and flag. -/
def runPairs (input_boundary_width input_contact_spacing : ℚ) :
    List PairData → List String → Bool → List Event × List String × Option DriverError
  | [], fs, _ => ([], fs, none)
  | p :: rest, fs, first =>
    let r := processPair input_boundary_width input_contact_spacing fs first p
    match r.2.2.2 with
    | some f => (r.1, r.2.1, some (DriverError.uncaught p.labelPath f))
    | none =>
      let rr := runPairs input_boundary_width input_contact_spacing rest r.2.1 r.2.2.1
      (r.1 ++ rr.1, rr.2.1, rr.2.2)

/-- The driver `multimasks_from_polygons` (lines 29-165): the pair list produced by
`get_tq_chip_label_pairs` is unpacked with `zip(*pairs)`, which raises on an
empty list (the spec's `PairingError`) before any processing; otherwise the
loop runs with the first-iteration flag initially true.  The result is the
event trace, the final filesystem, and the run error if any. -/
def multimasks_from_polygons (pairs : List PairData) (fs : List String)
    (input_contact_spacing input_boundary_width : ℚ) :
    List Event × List String × Option DriverError :=
  match pairs with
  | [] => ([], fs, some DriverError.pairingError)
  | _ => runPairs input_boundary_width input_contact_spacing pairs fs true

/-- Recognizer for the two parameter-print events. -/
def isPrintEvent : Event → Bool
  | Event.printParamsMeters _ _ _ => true
  | Event.printParamsPixels _ _ => true
  | _ => false

/-- Recognizer for write events. -/
def isWriteEvent : Event → Bool
  | Event.write _ _ => true
  | _ => false

/-- Recognizer for skip events. -/
def isSkipEvent : Event → Bool
  | Event.skip _ => true
  | _ => false

/-- Recognizer for rasterizer-call events. -/
def isRasterizeEvent : Event → Bool
  | Event.rasterizeCall _ _ _ _ _ => true
  | _ => false

/-- Recognizer for a write to one particular path. -/
def isWriteTo (path : String) : Event → Bool
  | Event.write q _ => q = path
  | _ => false

/-- Number of parameter prints in a trace. -/
def printCount (evs : List Event) : ℕ := (evs.filter isPrintEvent).length

/-- Number of mask writes in a trace. -/
def writeCount (evs : List Event) : ℕ := (evs.filter isWriteEvent).length

/-- Number of skipped pairs in a trace. -/
def skipCount (evs : List Event) : ℕ := (evs.filter isSkipEvent).length

/-! Structural lemmas about the encoder body and the driver loop. -/

lemma runPairs_cons_fail (bw cs : ℚ) (p : PairData) (rest : List PairData)
    (fs : List String) (first : Bool) (f : PairFailure)
    (h : (processPair bw cs fs first p).2.2.2 = some f) :
    runPairs bw cs (p :: rest) fs first
      = ((processPair bw cs fs first p).1, (processPair bw cs fs first p).2.1,
         some (DriverError.uncaught p.labelPath f)) := by
  conv_lhs => unfold runPairs
  simp only [h]

lemma runPairs_cons_ok (bw cs : ℚ) (p : PairData) (rest : List PairData)
    (fs : List String) (first : Bool)
    (h : (processPair bw cs fs first p).2.2.2 = none) :
    runPairs bw cs (p :: rest) fs first
      = ((processPair bw cs fs first p).1
          ++ (runPairs bw cs rest (processPair bw cs fs first p).2.1
                (processPair bw cs fs first p).2.2.1).1,
         (runPairs bw cs rest (processPair bw cs fs first p).2.1
            (processPair bw cs fs first p).2.2.1).2.1,
         (runPairs bw cs rest (processPair bw cs fs first p).2.1
            (processPair bw cs fs first p).2.2.1).2.2) := by
  conv_lhs => unfold runPairs
  simp only [h]

lemma processPair_skip (bw cs : ℚ) (fs : List String) (first : Bool) (p : PairData)
    (h : p.maskPath ∈ fs) :
    processPair bw cs fs first p = ([Event.skip p.maskPath], fs, first, none) := by
  unfold processPair
  rw [if_pos h]

lemma encodePair_spec (bw cs : ℚ) (first : Bool) (p : PairData) :
    ((encodePair bw cs first p).1.filter isWriteEvent = []
      ∧ (encodePair bw cs first p).1.filter isSkipEvent = [])
    ∧ (first = false → (encodePair bw cs first p).2.1 = false
        ∧ printCount (encodePair bw cs first p).1 = 0)
    ∧ (first = true → (encodePair bw cs first p).2.1 = true
        → (encodePair bw cs first p).1 = [])
    ∧ (first = true → (encodePair bw cs first p).2.1 = false
        → printCount (encodePair bw cs first p).1 = 1) := by
  obtain ⟨lp, cp, mp, chipo, labelo, rasto⟩ := p
  cases chipo with
  | none => cases first <;> simp [encodePair, printCount]
  | some chip =>
    cases labelo with
    | none => cases first <;> simp [encodePair, printCount]
    | some label =>
      cases hl : label.crs with
      | none => cases first <;> simp [encodePair, hl, printCount]
      | some c =>
        rcases eq_or_ne c chip.crs with hcc | hcc
        · subst hcc
          cases hg : chip.crs.metric <;> cases first <;> cases rasto <;>
            simp [encodePair, hl, hg, printCount, isPrintEvent, isWriteEvent, isSkipEvent]
        · cases hg : chip.crs.metric <;> cases first <;> cases rasto <;>
            simp [encodePair, hl, hcc, hg, printCount, isPrintEvent, isWriteEvent, isSkipEvent]

lemma isWriteTo_imp_isWriteEvent (path : String) (e : Event) :
    isWriteTo path e = true → isWriteEvent e = true := by
  cases e <;> simp [isWriteTo, isWriteEvent]

lemma filter_isWriteTo_nil (path : String) (l : List Event)
    (h : l.filter isWriteEvent = []) : l.filter (isWriteTo path) = [] := by
  rw [List.filter_eq_nil_iff] at h ⊢
  intro a ha hq
  exact h a ha (isWriteTo_imp_isWriteEvent path a hq)

lemma printCount_append (a b : List Event) :
    printCount (a ++ b) = printCount a + printCount b := by
  unfold printCount
  rw [List.filter_append, List.length_append]

lemma printCount_write (path : String) (w : WrittenMask) :
    printCount [Event.write path w] = 0 := rfl

lemma processPair_spec (bw cs : ℚ) (fs : List String) (first : Bool) (p : PairData) :
    (∀ f, (processPair bw cs fs first p).2.2.2 = some f
        → (processPair bw cs fs first p).2.1 = fs) ∧
    ((processPair bw cs fs first p).2.2.2 = none
        → p.maskPath ∈ (processPair bw cs fs first p).2.1) ∧
    (∀ path, path ∈ fs → (processPair bw cs fs first p).1.filter (isWriteTo path) = []) ∧
    (first = false → (processPair bw cs fs first p).2.2.1 = false
        ∧ printCount (processPair bw cs fs first p).1 = 0) ∧
    (first = true → (processPair bw cs fs first p).2.2.1 = true
        → printCount (processPair bw cs fs first p).1 = 0
          ∧ (processPair bw cs fs first p).1.filter isRasterizeEvent = []) ∧
    (first = true → (processPair bw cs fs first p).2.2.1 = false
        → printCount (processPair bw cs fs first p).1 = 1) := by
  obtain ⟨⟨hw, hs⟩, he0, he1, he2⟩ := encodePair_spec bw cs first p
  unfold processPair
  by_cases hm : p.maskPath ∈ fs
  · rw [if_pos hm]
    refine ⟨?_, ?_, ?_, ?_, ?_, ?_⟩ <;>
      simp [printCount, isPrintEvent, isRasterizeEvent, isWriteTo, hm]
  · rw [if_neg hm]
    rcases hev : encodePair bw cs first p with ⟨evs, first', r⟩
    rw [hev] at hw hs he0 he1 he2
    dsimp only at hw hs he0 he1 he2
    cases r with
    | error f' =>
      dsimp only
      refine ⟨fun f _ => rfl, fun h => by simp at h,
        fun path hpath => filter_isWriteTo_nil path evs hw,
        fun h0 => he0 h0, fun h1 h1' => ?_, fun h1 h1' => he2 h1 h1'⟩
      rw [he1 h1 h1']
      exact ⟨rfl, rfl⟩
    | ok w =>
      dsimp only
      have hwrite : ∀ path, path ∈ fs →
          (evs ++ [Event.write p.maskPath w]).filter (isWriteTo path) = [] := by
        intro path hpath
        rw [List.filter_append, filter_isWriteTo_nil path evs hw]
        have hne : (p.maskPath = path) = False := by
          simp only [eq_iff_iff, iff_false]
          intro hcontra
          exact hm (hcontra ▸ hpath)
        simp [isWriteTo, hne]
      refine ⟨fun f h => by simp at h, fun _ => List.mem_cons_self _ _,
        fun path hpath => hwrite path hpath, fun h0 => ?_, fun h1 h1' => ?_, fun h1 h1' => ?_⟩
      · exact ⟨(he0 h0).1, by rw [printCount_append, (he0 h0).2, printCount_write]⟩
      · rw [he1 h1 h1']
        exact ⟨rfl, rfl⟩
      · rw [printCount_append, he2 h1 h1', printCount_write]

lemma processPair_fs_cases (bw cs : ℚ) (fs : List String) (first : Bool) (p : PairData) :
    (processPair bw cs fs first p).2.1 = fs
      ∨ (p.maskPath ∉ fs ∧ (processPair bw cs fs first p).2.1 = p.maskPath :: fs) := by
  unfold processPair
  by_cases hm : p.maskPath ∈ fs
  · rw [if_pos hm]
    left
    rfl
  · rw [if_neg hm]
    rcases encodePair bw cs first p with ⟨evs, first', r⟩
    cases r with
    | error f' => left; rfl
    | ok w => right; exact ⟨hm, rfl⟩

lemma processPair_fs_mono (bw cs : ℚ) (fs : List String) (first : Bool) (p : PairData) :
    fs ⊆ (processPair bw cs fs first p).2.1 := by
  rcases processPair_fs_cases bw cs fs first p with h | ⟨_, h⟩
  · rw [h]
    exact fun x hx => hx
  · rw [h]
    exact fun x hx => List.mem_cons_of_mem _ hx

lemma runPairs_fs_mono (bw cs : ℚ) : ∀ (ps : List PairData) (fs : List String) (first : Bool),
    fs ⊆ (runPairs bw cs ps fs first).2.1 := by
  intro ps
  induction ps with
  | nil => intro fs first; exact fun x hx => hx
  | cons p rest ih =>
    intro fs first
    cases hf : (processPair bw cs fs first p).2.2.2 with
    | some f =>
      rw [runPairs_cons_fail bw cs p rest fs first f hf,
        (processPair_spec bw cs fs first p).1 f hf]
      exact fun x hx => hx
    | none =>
      rw [runPairs_cons_ok bw cs p rest fs first hf]
      exact fun x hx => ih _ _ (processPair_fs_mono bw cs fs first p hx)

lemma runPairs_success_mem (bw cs : ℚ) : ∀ (ps : List PairData) (fs : List String) (first : Bool),
    (runPairs bw cs ps fs first).2.2 = none →
    ∀ q ∈ ps, q.maskPath ∈ (runPairs bw cs ps fs first).2.1 := by
  intro ps
  induction ps with
  | nil => intro fs first _ q hq; exact absurd hq (List.not_mem_nil q)
  | cons p rest ih =>
    intro fs first hok q hq
    cases hf : (processPair bw cs fs first p).2.2.2 with
    | some f =>
      rw [runPairs_cons_fail bw cs p rest fs first f hf] at hok
      simp at hok
    | none =>
      rw [runPairs_cons_ok bw cs p rest fs first hf] at hok ⊢
      rcases List.mem_cons.mp hq with rfl | hq'
      · exact runPairs_fs_mono bw cs rest _ _ ((processPair_spec bw cs fs first q).2.1 hf)
      · exact ih _ _ hok q hq'

lemma runPairs_no_overwrite (bw cs : ℚ) :
    ∀ (ps : List PairData) (fs : List String) (first : Bool) (path : String), path ∈ fs →
    (runPairs bw cs ps fs first).1.filter (isWriteTo path) = [] := by
  intro ps
  induction ps with
  | nil => intro fs first path _; rfl
  | cons p rest ih =>
    intro fs first path hpath
    cases hf : (processPair bw cs fs first p).2.2.2 with
    | some f =>
      rw [runPairs_cons_fail bw cs p rest fs first f hf]
      exact (processPair_spec bw cs fs first p).2.2.1 path hpath
    | none =>
      rw [runPairs_cons_ok bw cs p rest fs first hf]
      show ((processPair bw cs fs first p).1
          ++ (runPairs bw cs rest (processPair bw cs fs first p).2.1
                (processPair bw cs fs first p).2.2.1).1).filter (isWriteTo path) = []
      rw [List.filter_append, (processPair_spec bw cs fs first p).2.2.1 path hpath,
        ih _ _ path (processPair_fs_mono bw cs fs first p hpath)]
      rfl

lemma runPairs_all_skipped (bw cs : ℚ) :
    ∀ (ps : List PairData) (fs : List String) (first : Bool), (∀ p ∈ ps, p.maskPath ∈ fs) →
    runPairs bw cs ps fs first = (ps.map (fun p => Event.skip p.maskPath), fs, none) := by
  intro ps
  induction ps with
  | nil => intro fs first _; rfl
  | cons p rest ih =>
    intro fs first h
    have hp := h p (List.mem_cons_self p rest)
    have hnone : (processPair bw cs fs first p).2.2.2 = none := by
      rw [processPair_skip bw cs fs first p hp]
    rw [runPairs_cons_ok bw cs p rest fs first hnone, processPair_skip bw cs fs first p hp,
      ih fs first (fun q hq => h q (List.mem_cons_of_mem p hq))]
    simp

lemma runPairs_print_false (bw cs : ℚ) : ∀ (ps : List PairData) (fs : List String),
    printCount (runPairs bw cs ps fs false).1 = 0 := by
  intro ps
  induction ps with
  | nil => intro fs; rfl
  | cons p rest ih =>
    intro fs
    have hspec := (processPair_spec bw cs fs false p).2.2.2.1 rfl
    cases hf : (processPair bw cs fs false p).2.2.2 with
    | some f =>
      rw [runPairs_cons_fail bw cs p rest fs false f hf]
      exact hspec.2
    | none =>
      rw [runPairs_cons_ok bw cs p rest fs false hf]
      show printCount ((processPair bw cs fs false p).1
          ++ (runPairs bw cs rest (processPair bw cs fs false p).2.1
                (processPair bw cs fs false p).2.2.1).1) = 0
      rw [printCount_append, hspec.2, hspec.1, ih _]

lemma runPairs_print_le_one (bw cs : ℚ) : ∀ (ps : List PairData) (fs : List String),
    printCount (runPairs bw cs ps fs true).1 ≤ 1 := by
  intro ps
  induction ps with
  | nil => intro fs; exact Nat.zero_le 1
  | cons p rest ih =>
    intro fs
    cases hf : (processPair bw cs fs true p).2.2.2 with
    | some f =>
      rw [runPairs_cons_fail bw cs p rest fs true f hf]
      cases hflag : (processPair bw cs fs true p).2.2.1 with
      | true =>
        rw [((processPair_spec bw cs fs true p).2.2.2.2.1 rfl hflag).1]
        exact Nat.zero_le 1
      | false =>
        rw [(processPair_spec bw cs fs true p).2.2.2.2.2 rfl hflag]
    | none =>
      rw [runPairs_cons_ok bw cs p rest fs true hf]
      show printCount ((processPair bw cs fs true p).1
          ++ (runPairs bw cs rest (processPair bw cs fs true p).2.1
                (processPair bw cs fs true p).2.2.1).1) ≤ 1
      rw [printCount_append]
      cases hflag : (processPair bw cs fs true p).2.2.1 with
      | true =>
        rw [((processPair_spec bw cs fs true p).2.2.2.2.1 rfl hflag).1, Nat.zero_add]
        exact ih _
      | false =>
        rw [(processPair_spec bw cs fs true p).2.2.2.2.2 rfl hflag,
          runPairs_print_false bw cs rest _]

lemma runPairs_rasterize_print (bw cs : ℚ) :
    ∀ (ps : List PairData) (fs : List String) (ev : Event),
    ev ∈ (runPairs bw cs ps fs true).1 → isRasterizeEvent ev = true →
    printCount (runPairs bw cs ps fs true).1 = 1 := by
  intro ps
  induction ps with
  | nil => intro fs ev hev _; exact absurd hev (List.not_mem_nil ev)
  | cons p rest ih =>
    intro fs ev hev hrast
    cases hf : (processPair bw cs fs true p).2.2.2 with
    | some f =>
      rw [runPairs_cons_fail bw cs p rest fs true f hf] at hev ⊢
      cases hflag : (processPair bw cs fs true p).2.2.1 with
      | true =>
        have hfree := ((processPair_spec bw cs fs true p).2.2.2.2.1 rfl hflag).2
        have : ev ∈ (processPair bw cs fs true p).1.filter isRasterizeEvent :=
          List.mem_filter.mpr ⟨hev, hrast⟩
        rw [hfree] at this
        exact absurd this (List.not_mem_nil ev)
      | false =>
        exact (processPair_spec bw cs fs true p).2.2.2.2.2 rfl hflag
    | none =>
      rw [runPairs_cons_ok bw cs p rest fs true hf] at hev ⊢
      show printCount ((processPair bw cs fs true p).1
          ++ (runPairs bw cs rest (processPair bw cs fs true p).2.1
                (processPair bw cs fs true p).2.2.1).1) = 1
      rw [printCount_append]
      have hev' : ev ∈ (processPair bw cs fs true p).1
          ++ (runPairs bw cs rest (processPair bw cs fs true p).2.1
                (processPair bw cs fs true p).2.2.1).1 := hev
      cases hflag : (processPair bw cs fs true p).2.2.1 with
      | true =>
        have hspec := (processPair_spec bw cs fs true p).2.2.2.2.1 rfl hflag
        rcases List.mem_append.mp hev' with h | h
        · have : ev ∈ (processPair bw cs fs true p).1.filter isRasterizeEvent :=
            List.mem_filter.mpr ⟨h, hrast⟩
          rw [hspec.2] at this
          exact absurd this (List.not_mem_nil ev)
        · rw [hflag] at h
          rw [hspec.1, Nat.zero_add]
          exact ih _ ev h hrast
      | false =>
        rw [(processPair_spec bw cs fs true p).2.2.2.2.2 rfl hflag,
          runPairs_print_false bw cs rest _]

lemma printCount_skips (ps : List PairData) :
    printCount (ps.map (fun p => Event.skip p.maskPath)) = 0 := by
  induction ps with
  | nil => rfl
  | cons p rest ih => simp only [List.map_cons, printCount, isPrintEvent, List.filter_cons] at ih ⊢; exact ih

lemma runPairs_single_sub (bw cs : ℚ) (p : PairData) (fs : List String) :
    (processPair bw cs fs true p).1 ⊆ (runPairs bw cs [p] fs true).1 := by
  cases hf : (processPair bw cs fs true p).2.2.2 with
  | some f =>
    rw [runPairs_cons_fail bw cs p [] fs true f hf]
    exact fun x hx => hx
  | none =>
    rw [runPairs_cons_ok bw cs p [] fs true hf]
    exact fun x hx => List.mem_append_left _ hx

lemma sparse_shape (onehot : OneHotMask) (H W : ℕ)
    (hH : onehot.length = H) (hW : ∀ row ∈ onehot, row.length = W)
    (hH0 : 0 < H) (hW0 : 0 < W) :
    (to_channels_first (multimask_to_sparse_multimask onehot)).length = 1 ∧
    ((to_channels_first (multimask_to_sparse_multimask onehot)).headD []).length = H ∧
    ((to_channels_first (multimask_to_sparse_multimask onehot)).headD []).all
        (fun row => row.length == W) = true := by
  obtain ⟨r, rows, rfl⟩ : ∃ r rows, onehot = r :: rows := by
    cases onehot with
    | nil => simp at hH; omega
    | cons r rows => exact ⟨r, rows, rfl⟩
  obtain ⟨px, pxs, rfl⟩ : ∃ px pxs, r = px :: pxs := by
    cases r with
    | nil =>
      have := hW [] (List.mem_cons_self _ _)
      simp at this
      omega
    | cons px pxs => exact ⟨px, pxs, rfl⟩
  have hcf : to_channels_first (multimask_to_sparse_multimask ((px :: pxs) :: rows))
      = [(multimask_to_sparse_multimask ((px :: pxs) :: rows)).map
          (fun row => row.map (fun q => q.getD 0 0))] := by
    unfold to_channels_first multimask_to_sparse_multimask
    simp [List.range_succ]
  rw [hcf]
  refine ⟨rfl, ?_, ?_⟩
  · simpa [multimask_to_sparse_multimask] using hH
  · rw [List.headD_cons, List.all_eq_true]
    intro row hrow
    obtain ⟨orig, horig, rfl⟩ := List.mem_map.mp hrow
    unfold multimask_to_sparse_multimask at horig
    obtain ⟨origRow, horigRow, rfl⟩ := List.mem_map.mp horig
    simp [hW origRow horigRow]

/-! Concrete chips, labels and pairs used by witnesses and counterexamples. -/

/-- A projected (metric) CRS used in concrete runs. -/
def crsMetricW : CRS := ⟨32633, true⟩

/-- A geographic (degree-based) CRS used in concrete runs. -/
def crsGeoW : CRS := ⟨4326, false⟩

/-- A 2x2 metric chip with unit resolution. -/
def chipMetricW : ChipMeta := ⟨2, 2, 1, 1, crsMetricW, 3, "float32", some 0⟩

/-- A label whose CRS matches `chipMetricW` and holds one single-part polygon. -/
def labelMetricW : LabelData := ⟨some crsMetricW, [⟨false, false, 1⟩]⟩

/-- A 2x2 one-hot rasterizer output. -/
def onehotW : OneHotMask := [[(1, 0, 0), (0, 1, 0)], [(0, 0, 1), (0, 0, 0)]]

/-- A pair whose rasterizer call fails. -/
def pairFailW : PairData := ⟨"lF", "cF", "mF", some chipMetricW, some labelMetricW, none⟩

/-- A pair that encodes successfully. -/
def pairGoodW : PairData := ⟨"lG", "cG", "mG", some chipMetricW, some labelMetricW, some onehotW⟩

/-- Another successfully encoding pair. -/
def pairW : PairData := ⟨"lW", "cW", "mW", some chipMetricW, some labelMetricW, some onehotW⟩

/-- A third successfully encoding pair. -/
def pairW2 : PairData := ⟨"lW2", "cW2", "mW2", some chipMetricW, some labelMetricW, some onehotW⟩

/-- A pair whose mask already exists; its chip and label are unreadable, which
does not matter because the skip check comes first. -/
def pairSkipW : PairData := ⟨"lS", "cS", "mS", none, none, none⟩

/-- A 2x2 non-metric chip with resolution 0.1 units/pixel on both axes. -/
def chipC2a : ChipMeta := ⟨2, 2, 1/10, 1/10, crsGeoW, 3, "float32", some 0⟩

/-- A 2x2 non-metric chip with resolution 0.3 units/pixel on both axes. -/
def chipC2b : ChipMeta := ⟨2, 2, 3/10, 3/10, crsGeoW, 3, "float32", some 0⟩

/-- A label whose CRS matches the geographic chips. -/
def labelGeoW : LabelData := ⟨some crsGeoW, [⟨false, false, 1⟩]⟩

/-- A non-metric pair at resolution 0.1. -/
def pairC2a : PairData := ⟨"l2a", "c2a", "m2a", some chipC2a, some labelGeoW, some onehotW⟩

/-- A non-metric pair at resolution 0.3. -/
def pairC2b : PairData := ⟨"l2b", "c2b", "m2b", some chipC2b, some labelGeoW, some onehotW⟩

/-! Claim theorems for the batch driver. -/

/-- C7: pair resolution with zero chip/label pairs fails with the pairing
error (the `ValueError` raised by `zip(*pairs)` on an empty pair list, the
spec's `PairingError`), aborting before any processing: no events are emitted
and the filesystem is unchanged. -/
theorem C7_zero_pairs_abort (fs : List String) (ics ibw : ℚ) :
    multimasks_from_polygons [] fs ics ibw = ([], fs, some DriverError.pairingError) := rfl

/-- Witness for C7 on a concrete filesystem. -/
theorem C7_zero_pairs_abort_witness :
    multimasks_from_polygons [] ["a"] (3/4) (1/2)
      = ([], ["a"], some DriverError.pairingError) :=
  C7_zero_pairs_abort ["a"] (3/4) (1/2)

/-- C1 (amended): a failure while encoding one chip/label pair is NOT caught:
the loop body has no exception handler, so the failing pair's exception
terminates the batch with the failing pair's identity, that pair's output is
not produced (the filesystem is unchanged by it), and the remaining pairs
contribute nothing to the run — the result does not depend on `rest` at all.
Recovery is by re-running, which skips already-completed outputs. -/
theorem C1_failure_aborts_batch (bw cs : ℚ) (p : PairData) (rest : List PairData)
    (fs : List String) (first : Bool) (f : PairFailure)
    (hfail : (processPair bw cs fs first p).2.2.2 = some f) :
    runPairs bw cs (p :: rest) fs first
      = ((processPair bw cs fs first p).1, fs, some (DriverError.uncaught p.labelPath f)) := by
  rw [runPairs_cons_fail bw cs p rest fs first f hfail,
    (processPair_spec bw cs fs first p).1 f hfail]

/-- Witness for C1 (amended) at a concrete failing pair followed by a healthy
pair. -/
theorem C1_failure_aborts_batch_witness :
    runPairs (1/2) (3/4) [pairFailW, pairGoodW] [] true
      = ((processPair (1/2) (3/4) [] true pairFailW).1, [],
         some (DriverError.uncaught "lF" PairFailure.rasterizeError)) :=
  C1_failure_aborts_batch (1/2) (3/4) pairFailW [pairGoodW] [] true
    PairFailure.rasterizeError (by
      simp [processPair, encodePair, pairFailW, chipMetricW, labelMetricW, crsMetricW])

/-- C1 counterexample: with a concrete two-pair batch whose first pair fails,
the run terminates with that failure, the second (processable) pair is never
encoded — no write to its mask path happens and its mask is absent from the
final filesystem — even though running the second pair alone does write it.
This refutes the claim that processing continues past a failing pair. -/
theorem C1_counterexample :
    (runPairs (1/2) (3/4) [pairFailW, pairGoodW] [] true).2.2
        = some (DriverError.uncaught "lF" PairFailure.rasterizeError) ∧
    (runPairs (1/2) (3/4) [pairFailW, pairGoodW] [] true).1.filter (isWriteTo "mG") = [] ∧
    "mG" ∉ (runPairs (1/2) (3/4) [pairFailW, pairGoodW] [] true).2.1 ∧
    (runPairs (1/2) (3/4) [pairGoodW] [] true).1.filter (isWriteTo "mG") ≠ [] := by
  refine ⟨?_, ?_, ?_, ?_⟩ <;>
    simp [runPairs, processPair, encodePair, pairFailW, pairGoodW, chipMetricW, labelMetricW,
      crsMetricW, onehotW, isWriteTo, to_channels_first, multimask_to_sparse_multimask,
      sparsePixel]

/-- C5: resumption is idempotent.  After a successful run, running the driver
again over the unchanged filesystem only skips: the trace is exactly one skip
event per pair, no writes happen, and the filesystem is unchanged.  Moreover a
path that existed before a run is never written by it, and a pair whose mask
path exists is skipped by the loop (regardless of its chip/label being
readable — they are not touched) without modifying anything. -/
theorem C5_resumption_idempotent (bw cs : ℚ) (ps : List PairData) (fs fsOther : List String)
    (path : String) (q : PairData) (first : Bool)
    (hok : (runPairs bw cs ps fs true).2.2 = none) (hpath : path ∈ fs)
    (hq : q.maskPath ∈ fsOther) :
    runPairs bw cs ps (runPairs bw cs ps fs true).2.1 true
      = (ps.map (fun p => Event.skip p.maskPath), (runPairs bw cs ps fs true).2.1, none) ∧
    (runPairs bw cs ps fs true).1.filter (isWriteTo path) = [] ∧
    processPair bw cs fsOther first q = ([Event.skip q.maskPath], fsOther, first, none) :=
  ⟨runPairs_all_skipped bw cs ps _ true (runPairs_success_mem bw cs ps fs true hok),
    runPairs_no_overwrite bw cs ps fs true path hpath,
    processPair_skip bw cs fsOther first q hq⟩

/-- Witness for C5: a two-pair batch (one written, one skipped) rerun over its
own output filesystem only skips, and the unreadable-but-existing pair is
skipped without reading. -/
theorem C5_resumption_idempotent_witness :
    runPairs (1/2) (3/4) [pairW, pairSkipW]
        (runPairs (1/2) (3/4) [pairW, pairSkipW] ["mS"] true).2.1 true
      = ([pairW, pairSkipW].map (fun p => Event.skip p.maskPath),
         (runPairs (1/2) (3/4) [pairW, pairSkipW] ["mS"] true).2.1, none) ∧
    (runPairs (1/2) (3/4) [pairW, pairSkipW] ["mS"] true).1.filter (isWriteTo "mS") = [] ∧
    processPair (1/2) (3/4) ["mS"] true pairSkipW
      = ([Event.skip pairSkipW.maskPath], ["mS"], true, none) :=
  C5_resumption_idempotent (1/2) (3/4) [pairW, pairSkipW] ["mS"] ["mS"] "mS" pairSkipW true
    (by simp [runPairs, processPair, encodePair, pairW, pairSkipW, chipMetricW, labelMetricW,
      crsMetricW, onehotW])
    (by simp)
    (by simp [pairSkipW])

/-- C6: the resolved boundary/contact parameters are printed at most once per
run; whenever any pair reaches the rasterizer call (the per-pair processing
body past the skip check) the parameters have been printed exactly once; and a
run in which every pair is skipped prints them zero times. -/
theorem C6_params_printed_once (bw cs : ℚ) (ps psSkip psAny : List PairData)
    (fs fsSkip fsAny : List String) (ev : Event)
    (hskip : ∀ p ∈ psSkip, p.maskPath ∈ fsSkip)
    (hev : ev ∈ (runPairs bw cs ps fs true).1) (hrast : isRasterizeEvent ev = true) :
    printCount (runPairs bw cs ps fs true).1 = 1 ∧
    printCount (runPairs bw cs psSkip fsSkip true).1 = 0 ∧
    printCount (runPairs bw cs psAny fsAny true).1 ≤ 1 := by
  refine ⟨runPairs_rasterize_print bw cs ps fs ev hev hrast, ?_,
    runPairs_print_le_one bw cs psAny fsAny⟩
  rw [runPairs_all_skipped bw cs psSkip fsSkip true hskip]
  exact printCount_skips psSkip

/-- Witness for C6: a processed pair prints once; an all-skipped run prints
zero times. -/
theorem C6_params_printed_once_witness :
    printCount (runPairs (1/2) (3/4) [pairW] [] true).1 = 1 ∧
    printCount (runPairs (1/2) (3/4) [pairSkipW] ["mS"] true).1 = 0 ∧
    printCount (runPairs (1/2) (3/4) [] [] true).1 ≤ 1 :=
  C6_params_printed_once (1/2) (3/4) [pairW] [pairSkipW] [] [] ["mS"] []
    (Event.rasterizeCall "lW" 1 (1/2) (3/4) true)
    (by simp [pairSkipW])
    (by simp [runPairs, processPair, encodePair, pairW, chipMetricW, labelMetricW, crsMetricW,
      onehotW])
    rfl

/-- C2: for a pair whose label has a CRS (so that the reprojection step leaves
it in the chip's CRS), the widths handed to the rasterizer are the inputs
unchanged when the chip's CRS is metric, and otherwise the Python-`int`
truncation of the inputs divided by the minimum per-axis resolution, with the
metric flag passed alongside. -/
theorem C2_unit_reconciliation (bw cs : ℚ) (p : PairData) (chip : ChipMeta)
    (label : LabelData) (c : CRS) (fs : List String)
    (hm : p.maskPath ∉ fs) (hc : p.chip = some chip) (hl : p.label = some label)
    (hcrs : label.crs = some c) :
    Event.rasterizeCall p.labelPath
        (((label.geoms.filter (fun g => !g.isna)).filter
            (fun g => !g.emptyGeom)).map Geom.parts).sum
        (if chip.crs.metric then bw
          else ((pyInt (bw / min chip.resX chip.resY) : ℤ) : ℚ))
        (if chip.crs.metric then cs
          else ((pyInt (cs / min chip.resX chip.resY) : ℤ) : ℚ))
        chip.crs.metric
      ∈ (runPairs bw cs [p] fs true).1 := by
  apply runPairs_single_sub
  unfold processPair
  rw [if_neg hm]
  have hbody : Event.rasterizeCall p.labelPath
      (((label.geoms.filter (fun g => !g.isna)).filter
          (fun g => !g.emptyGeom)).map Geom.parts).sum
      (if chip.crs.metric then bw
        else ((pyInt (bw / min chip.resX chip.resY) : ℤ) : ℚ))
      (if chip.crs.metric then cs
        else ((pyInt (cs / min chip.resX chip.resY) : ℤ) : ℚ))
      chip.crs.metric
      ∈ (encodePair bw cs true p).1 := by
    unfold encodePair
    rw [hc, hl]
    dsimp only
    rw [hcrs]
    rcases eq_or_ne c chip.crs with hcc | hcc
    · subst hcc
      cases hg : chip.crs.metric <;> cases p.rasterized <;> simp [hg]
    · cases hg : chip.crs.metric <;> cases p.rasterized <;> simp [hcc, hg]
  rcases hev : encodePair bw cs true p with ⟨evs, first', r⟩
  rw [hev] at hbody
  cases r with
  | error f' => exact hbody
  | ok w => exact List.mem_append_left _ hbody

/-- Concrete truncation facts used by the C2 witness. -/
lemma pyInt_five : pyInt ((1/2 : ℚ) / min (1/10 : ℚ) (1/10)) = 5 := by
  have h1 : (1/2 : ℚ) / min (1/10 : ℚ) (1/10) = 5 := by
    rw [min_self]
    norm_num
  rw [h1]
  unfold pyInt
  norm_num

lemma pyInt_seven : pyInt ((3/4 : ℚ) / min (1/10 : ℚ) (1/10)) = 7 := by
  have h1 : (3/4 : ℚ) / min (1/10 : ℚ) (1/10) = 15/2 := by
    rw [min_self]
    norm_num
  rw [h1]
  unfold pyInt
  norm_num
  decide

lemma pyInt_one : pyInt ((1/2 : ℚ) / min (3/10 : ℚ) (3/10)) = 1 := by
  have h1 : (1/2 : ℚ) / min (3/10 : ℚ) (3/10) = 5/3 := by
    rw [min_self]
    norm_num
  rw [h1]
  unfold pyInt
  norm_num
  decide

lemma pyInt_two : pyInt ((3/4 : ℚ) / min (3/10 : ℚ) (3/10)) = 2 := by
  have h1 : (3/4 : ℚ) / min (3/10 : ℚ) (3/10) = 5/2 := by
    rw [min_self]
    norm_num
  rw [h1]
  unfold pyInt
  norm_num
  decide

/-- Witness for C2 realizing the spec's numeric examples: at resolution 0.1 an
input of 0.5 m becomes 5 pixels (and 0.75 m becomes 7 pixels); at resolution
0.3 an input of 0.5 m truncates to 1 pixel (and 0.75 m to 2 pixels). -/
theorem C2_unit_reconciliation_witness :
    Event.rasterizeCall "l2a" 1 5 7 false ∈ (runPairs (1/2) (3/4) [pairC2a] [] true).1 ∧
    Event.rasterizeCall "l2b" 1 1 2 false ∈ (runPairs (1/2) (3/4) [pairC2b] [] true).1 := by
  constructor
  · have h := C2_unit_reconciliation (1/2) (3/4) pairC2a chipC2a labelGeoW crsGeoW []
      (by simp) rfl rfl rfl
    have hfix : (if chipC2a.crs.metric then (1/2 : ℚ)
        else ((pyInt ((1/2) / min chipC2a.resX chipC2a.resY) : ℤ) : ℚ)) = 5 := by
      show (if crsGeoW.metric then (1/2 : ℚ)
        else ((pyInt ((1/2) / min (1/10 : ℚ) (1/10)) : ℤ) : ℚ)) = 5
      rw [show crsGeoW.metric = false from rfl, pyInt_five]
      norm_num
    have hfix2 : (if chipC2a.crs.metric then (3/4 : ℚ)
        else ((pyInt ((3/4) / min chipC2a.resX chipC2a.resY) : ℤ) : ℚ)) = 7 := by
      show (if crsGeoW.metric then (3/4 : ℚ)
        else ((pyInt ((3/4) / min (1/10 : ℚ) (1/10)) : ℤ) : ℚ)) = 7
      rw [show crsGeoW.metric = false from rfl, pyInt_seven]
      norm_num
    rw [hfix, hfix2] at h
    simpa [pairC2a, labelGeoW, chipC2a, crsGeoW] using h
  · have h := C2_unit_reconciliation (1/2) (3/4) pairC2b chipC2b labelGeoW crsGeoW []
      (by simp) rfl rfl rfl
    have hfix : (if chipC2b.crs.metric then (1/2 : ℚ)
        else ((pyInt ((1/2) / min chipC2b.resX chipC2b.resY) : ℤ) : ℚ)) = 1 := by
      show (if crsGeoW.metric then (1/2 : ℚ)
        else ((pyInt ((1/2) / min (3/10 : ℚ) (3/10)) : ℤ) : ℚ)) = 1
      rw [show crsGeoW.metric = false from rfl, pyInt_one]
      norm_num
    have hfix2 : (if chipC2b.crs.metric then (3/4 : ℚ)
        else ((pyInt ((3/4) / min chipC2b.resX chipC2b.resY) : ℤ) : ℚ)) = 2 := by
      show (if crsGeoW.metric then (3/4 : ℚ)
        else ((pyInt ((3/4) / min (3/10 : ℚ) (3/10)) : ℤ) : ℚ)) = 2
      rw [show crsGeoW.metric = false from rfl, pyInt_two]
      norm_num
    rw [hfix, hfix2] at h
    simpa [pairC2b, labelGeoW, chipC2b, crsGeoW] using h

/-- C8 (amended): the batch driver returns no written/skipped counts and
reports none to the user: its user-visible print output is independent of how
many pairs were written or skipped.  For any input widths there are two runs
whose print reports coincide while their write counts (1 vs 2) and skip
counts (1 vs 0) differ, so the counts cannot be part of any report. -/
theorem C8_no_count_reporting (bw cs : ℚ) :
    ∃ (ps1 ps2 : List PairData) (fs1 fs2 : List String),
      (runPairs bw cs ps1 fs1 true).1.filter isPrintEvent
        = (runPairs bw cs ps2 fs2 true).1.filter isPrintEvent ∧
      writeCount (runPairs bw cs ps1 fs1 true).1 = 1 ∧
      skipCount (runPairs bw cs ps1 fs1 true).1 = 1 ∧
      writeCount (runPairs bw cs ps2 fs2 true).1 = 2 ∧
      skipCount (runPairs bw cs ps2 fs2 true).1 = 0 := by
  refine ⟨[pairW, pairSkipW], [pairW, pairW2], ["mS"], [], ?_, ?_, ?_, ?_, ?_⟩ <;>
    simp [runPairs, processPair, encodePair, pairW, pairW2, pairSkipW, chipMetricW,
      labelMetricW, crsMetricW, onehotW, writeCount, skipCount, isPrintEvent, isWriteEvent,
      isSkipEvent, to_channels_first, multimask_to_sparse_multimask, sparsePixel]

/-- C8 counterexample: two concrete runs — one writing 1 mask and skipping 1
pair, the other writing 2 and skipping 0 — produce identical user-visible
print reports, refuting the claim that written/skipped counts are returned or
reported. -/
theorem C8_counterexample :
    (runPairs (1/2) (3/4) [pairW, pairSkipW] ["mS"] true).1.filter isPrintEvent
      = (runPairs (1/2) (3/4) [pairW, pairW2] [] true).1.filter isPrintEvent ∧
    writeCount (runPairs (1/2) (3/4) [pairW, pairSkipW] ["mS"] true).1
      ≠ writeCount (runPairs (1/2) (3/4) [pairW, pairW2] [] true).1 ∧
    skipCount (runPairs (1/2) (3/4) [pairW, pairSkipW] ["mS"] true).1
      ≠ skipCount (runPairs (1/2) (3/4) [pairW, pairW2] [] true).1 := by
  refine ⟨?_, ?_, ?_⟩ <;>
    simp [runPairs, processPair, encodePair, pairW, pairW2, pairSkipW, chipMetricW,
      labelMetricW, crsMetricW, onehotW, writeCount, skipCount, isPrintEvent, isWriteEvent,
      isSkipEvent, to_channels_first, multimask_to_sparse_multimask, sparsePixel]

/-- C9: for every pair the encoder writes, the mask file carries the source
chip's metadata with band count overridden to 1, dtype overridden to "uint8"
and the nodata sentinel cleared, and its pixel data is in channel-first
`(1, H, W)` layout: one channel, `H` rows of `W` pixels each, matching the
chip's shape. -/
theorem C9_write_layout (bw cs : ℚ) (p : PairData) (chip : ChipMeta)
    (label : LabelData) (c : CRS) (onehot : OneHotMask) (fs : List String)
    (hm : p.maskPath ∉ fs) (hc : p.chip = some chip) (hl : p.label = some label)
    (hcrs : label.crs = some c) (hr : p.rasterized = some onehot)
    (hH : onehot.length = chip.height) (hW : ∀ row ∈ onehot, row.length = chip.width)
    (hH0 : 0 < chip.height) (hW0 : 0 < chip.width) :
    Event.write p.maskPath
        ⟨{ chip with count := 1, dtype := "uint8", nodata := none },
          to_channels_first (multimask_to_sparse_multimask onehot)⟩
        ∈ (runPairs bw cs [p] fs true).1 ∧
    (to_channels_first (multimask_to_sparse_multimask onehot)).length = 1 ∧
    ((to_channels_first (multimask_to_sparse_multimask onehot)).headD []).length
        = chip.height ∧
    ((to_channels_first (multimask_to_sparse_multimask onehot)).headD []).all
        (fun row => row.length == chip.width) = true := by
  obtain ⟨h1, h2, h3⟩ := sparse_shape onehot chip.height chip.width hH hW hH0 hW0
  refine ⟨?_, h1, h2, h3⟩
  have hmem : Event.write p.maskPath
      ⟨{ chip with
          count := (to_channels_first (multimask_to_sparse_multimask onehot)).length,
          dtype := "uint8", nodata := none },
        to_channels_first (multimask_to_sparse_multimask onehot)⟩
      ∈ (runPairs bw cs [p] fs true).1 := by
    have hnone : (processPair bw cs fs true p).2.2.2 = none := by
      unfold processPair
      rw [if_neg hm]
      unfold encodePair
      rw [hc, hl]
      dsimp only
      rw [hcrs, hr]
      rcases eq_or_ne c chip.crs with hcc | hcc
      · subst hcc
        cases hg : chip.crs.metric <;> simp [hg]
      · cases hg : chip.crs.metric <;> simp [hcc, hg]
    rw [runPairs_cons_ok bw cs p [] fs true hnone]
    apply List.mem_append_left
    unfold processPair
    rw [if_neg hm]
    unfold encodePair
    rw [hc, hl]
    dsimp only
    rw [hcrs, hr]
    rcases eq_or_ne c chip.crs with hcc | hcc
    · subst hcc
      cases hg : chip.crs.metric <;> simp [hg]
    · cases hg : chip.crs.metric <;> simp [hcc, hg]
  rw [h1] at hmem
  exact hmem

/-- Witness for C9 at a concrete metric pair with a 2x2 one-hot mask. -/
theorem C9_write_layout_witness :
    Event.write pairGoodW.maskPath
        ⟨{ chipMetricW with count := 1, dtype := "uint8", nodata := none },
          to_channels_first (multimask_to_sparse_multimask onehotW)⟩
        ∈ (runPairs (1/2) (3/4) [pairGoodW] [] true).1 ∧
    (to_channels_first (multimask_to_sparse_multimask onehotW)).length = 1 ∧
    ((to_channels_first (multimask_to_sparse_multimask onehotW)).headD []).length
        = chipMetricW.height ∧
    ((to_channels_first (multimask_to_sparse_multimask onehotW)).headD []).all
        (fun row => row.length == chipMetricW.width) = true :=
  C9_write_layout (1/2) (3/4) pairGoodW chipMetricW labelMetricW crsMetricW onehotW []
    (by simp) rfl rfl rfl rfl (by decide) (by decide) (by decide) (by decide)

end FairUtils
